import Mathlib

/-!
Verification of the build-orchestration pipeline of the `rust-skia`
repository (`skia-bindings/build.rs` and its `build_support` pipeline).

The embedding models:
- the environment interface of `build.rs` (`mod env`, `which::which`
  searches, `std::env::current_dir`),
- the control flow of `fn main` (deprecation warnings, offline vs full
  build mode selection, toolchain resolution, the order in which the
  `BinariesConfiguration` is constructed relative to the native build),
- the pipeline stages whose bodies live in `build_support` (not part of
  the sources here): `ArgumentSynthesizer`, `BuildExecutor`,
  `SourceResolver`.  These are modelled from the spec, as marked on each
  definition.
-/

namespace SkiaBuild

/-- Target platforms the pipeline distinguishes. -/
inductive Platform
  | linux
  | windows
  | macos
  | ios
  | android
deriving DecidableEq, Repr

/-- Named optional capabilities of the wrapped library, as they appear as
cargo features in the repository sources (`gpu`, `gl`, `vulkan`, `metal`,
`d3d`, `textlayout`). -/
inductive Capability
  | gpu
  | gl
  | vulkan
  | metal
  | d3d
  | textlayout
deriving DecidableEq, Repr

/-- The feature inputs of the build script: the two removed feature names
`svg` and `shaper` that `fn main` warns about (`build.rs` lines 26-32),
and the set of live capabilities. -/
structure Features where
  svg : Bool
  shaper : Bool
  capabilities : List Capability
deriving DecidableEq, Repr

/-- Immutable snapshot of the build inputs (`skia::BuildConfiguration`). -/
structure BuildConfiguration where
  features : Features
  platform : Platform
deriving DecidableEq, Repr

/-- Modelled from the spec: `skia::BuildConfiguration::default()` (its body
lives in `build_support`, not in the sources here) snapshots the cargo
feature set and target platform; per the ConfigResolver contract it is
total and never fails. -/
def BuildConfiguration.resolve (f : Features) (p : Platform) : BuildConfiguration :=
  { features := f, platform := p }

/-- Process environment visible to `build.rs`: the three `SKIA_OFFLINE_*`
variables read by `mod env` (lines 10-21), the invocation working
directory (line 69), and the results of the two `which::which` searches of
the executable search path (lines 37-38). -/
structure Env where
  skiaOfflineSourceDir : Option String
  skiaOfflineNinjaCommand : Option String
  skiaOfflineGnCommand : Option String
  currentDir : String
  whichGn : Option String
  whichNinja : Option String
deriving DecidableEq, Repr

/-- `env::offline_source_dir` (`build.rs` line 10). -/
def offline_source_dir (e : Env) : Option String :=
  e.skiaOfflineSourceDir

/-- `env::offline_ninja_command` (`build.rs` line 15). -/
def offline_ninja_command (e : Env) : Option String :=
  e.skiaOfflineNinjaCommand

/-- `env::offline_gn_command` (`build.rs` line 19). -/
def offline_gn_command (e : Env) : Option String :=
  e.skiaOfflineGnCommand

/-- The two mutually exclusive build modes of `fn main`. -/
inductive Mode
  | offline
  | full
deriving DecidableEq, Repr

/-- What `fn main` decides before handing off to the native build: the
mode, the skia source tree path, and the generator (`gn`) and executor
(`ninja`) paths passed to `skia::build` / `skia::build_offline`. -/
structure BuildInvocation where
  mode : Mode
  sourceDir : String
  ninja : Option String
  gn : Option String
deriving DecidableEq, Repr

/-- Embedding of the mode selection and toolchain resolution of `fn main`
(`build.rs` lines 37-77): if `SKIA_OFFLINE_SOURCE_DIR` is set the build is
offline, the source tree is that directory, and each tool path is the
explicit `SKIA_OFFLINE_*_COMMAND` override if present, else the
`which::which` search result (lines 51-60); otherwise the build is full,
rooted at the working directory joined with `skia`, and the tool paths are
the `which::which` results alone (lines 61-77). -/
def mainPlan (e : Env) : BuildInvocation :=
  match offline_source_dir e with
  | some dir =>
      { mode := Mode.offline
        sourceDir := dir
        ninja := (offline_ninja_command e).orElse fun _ => e.whichNinja
        gn := (offline_gn_command e).orElse fun _ => e.whichGn }
  | none =>
      { mode := Mode.full
        sourceDir := e.currentDir ++ "/skia"
        ninja := e.whichNinja
        gn := e.whichGn }

/-- Warning emitted for the removed `svg` feature (`build.rs` line 27). -/
def svgWarning : String :=
  "The feature svg has been removed. SVG and XML support is available in all build configurations."

/-- Warning emitted for the removed `shaper` feature (`build.rs` line 31). -/
def shaperWarning : String :=
  "The feature shaper has been removed. To use the SkShaper bindings, enable the feature textlayout."

/-- The deprecation warnings `fn main` emits (`build.rs` lines 26-32):
non-fatal, one per removed feature name that is enabled. -/
def mainWarnings (f : Features) : List String :=
  (if f.svg then [svgWarning] else []) ++ (if f.shaper then [shaperWarning] else [])

/-- The configuration prologue of `fn main` (`build.rs` lines 24-34): emit
the deprecation warnings, then unconditionally produce the
`BuildConfiguration`. -/
def mainResolve (f : Features) (p : Platform) : List String × BuildConfiguration :=
  (mainWarnings f, BuildConfiguration.resolve f p)

/-- Final export record of the pipeline (`skia::BinariesConfiguration`):
the output directory and the libraries to link. -/
structure BinariesConfiguration where
  outputDirectory : String
  linkLibraries : List String
deriving DecidableEq, Repr

/-- The static library each enabled capability contributes to the link
set. -/
def capabilityLib : Capability → List String
  | Capability.gpu => []
  | Capability.gl => []
  | Capability.vulkan => []
  | Capability.metal => []
  | Capability.d3d => []
  | Capability.textlayout => ["skshaper", "skparagraph"]

/-- Modelled from the spec: `BinariesConfiguration::from_cargo_env` (its
body lives in `build_support`, not in the sources here) computes the
export record from the cargo environment (the output directory) and the
`BuildConfiguration` capability set; as called at `build.rs` line 35 it
takes no build outcome. -/
def BinariesConfiguration.from_cargo_env (outDir : String) (c : BuildConfiguration) :
    BinariesConfiguration :=
  { outputDirectory := outDir
    linkLibraries := "skia" :: c.features.capabilities.flatMap capabilityLib }

/-- The externally observable steps of `fn main`, in program order. -/
inductive Event
  | resolveBuildConfiguration
  | constructBinariesConfiguration
  | runBuild
  | commitToCargo
deriving DecidableEq, BEq, Repr

/-- The order of the steps of `fn main` (`build.rs` lines 34-79): the
`BuildConfiguration` is built at line 34, the `BinariesConfiguration` at
line 35, the native build runs inside either branch (lines 43-77), and
`commit_to_cargo` runs last (line 79).  The order is the same in both
branches and for every environment. -/
def mainTrace (_e : Env) : List Event :=
  [Event.resolveBuildConfiguration, Event.constructBinariesConfiguration,
   Event.runBuild, Event.commitToCargo]

/-- Everything `fn main` computes, as a function of the environment,
feature inputs and cargo output directory: the warnings, the build
invocation, and the `BinariesConfiguration` that `commit_to_cargo`
exports at line 79 — which is the value bound at line 35, before either
build branch runs. -/
structure MainResult where
  warnings : List String
  invocation : BuildInvocation
  committed : BinariesConfiguration
deriving DecidableEq, Repr

/-- Embedding of `fn main` (`build.rs` lines 24-80) as a whole. -/
def mainRun (e : Env) (f : Features) (p : Platform) (outDir : String) : MainResult :=
  let build_config := BuildConfiguration.resolve f p
  let binaries_config := BinariesConfiguration.from_cargo_env outDir build_config
  { warnings := mainWarnings f
    invocation := mainPlan e
    committed := binaries_config }

/-- `skia::FinalBuildConfiguration`: the `BuildConfiguration` plus the
resolved source tree path and the offline flag
(`FinalBuildConfiguration::from_build_configuration`, called at
`build.rs` lines 46-49 and 67-70). -/
structure FinalBuildConfiguration where
  config : BuildConfiguration
  sourceDir : String
  offline : Bool
deriving DecidableEq, Repr

/-- The capability set of a `FinalBuildConfiguration`. -/
def FinalBuildConfiguration.caps (fcfg : FinalBuildConfiguration) : List Capability :=
  fcfg.config.features.capabilities

/-- The target platform of a `FinalBuildConfiguration`. -/
def FinalBuildConfiguration.plat (fcfg : FinalBuildConfiguration) : Platform :=
  fcfg.config.platform

/-- Whether a capability is enabled in a capability set. -/
def enabled (caps : List Capability) (c : Capability) : Bool :=
  caps.contains c

/-- A rule of the implication/exclusion table of the ArgumentSynthesizer:
a capability requiring another, two capabilities being mutually exclusive,
or a capability being valid only on some platforms. -/
inductive Rule
  | requires (a b : Capability)
  | excludes (a b : Capability)
  | platformOnly (a : Capability) (ps : List Platform)
deriving DecidableEq, Repr

/-- Whether a rule is violated by a capability set on a platform. -/
def Rule.violated (caps : List Capability) (p : Platform) : Rule → Bool
  | Rule.requires a b => enabled caps a && !enabled caps b
  | Rule.excludes a b => enabled caps a && enabled caps b
  | Rule.platformOnly a ps => enabled caps a && !ps.contains p

/-- A concrete implication/exclusion table in the shape the spec gives as
examples: each GPU backend requires the `gpu` capability, backends that
cannot coexist are mutually exclusive, and each backend is restricted to
the platforms it exists on. -/
def exampleRuleTable : List Rule :=
  [Rule.requires Capability.gl Capability.gpu,
   Rule.requires Capability.vulkan Capability.gpu,
   Rule.requires Capability.metal Capability.gpu,
   Rule.requires Capability.d3d Capability.gpu,
   Rule.excludes Capability.vulkan Capability.metal,
   Rule.platformOnly Capability.metal [Platform.macos, Platform.ios],
   Rule.platformOnly Capability.d3d [Platform.windows]]

/-- All capabilities, in a fixed enumeration order. -/
def allCapabilities : List Capability :=
  [Capability.gpu, Capability.gl, Capability.vulkan, Capability.metal,
   Capability.d3d, Capability.textlayout]

/-- The generator (`gn`) arguments contributed by a capability. -/
def capabilityArgs : Capability → List String
  | Capability.gpu => ["skia_enable_gpu=true"]
  | Capability.gl => ["skia_use_gl=true"]
  | Capability.vulkan => ["skia_use_vulkan=true"]
  | Capability.metal => ["skia_use_metal=true"]
  | Capability.d3d => ["skia_use_direct3d=true"]
  | Capability.textlayout => ["skia_enable_skparagraph=true", "skia_enable_skshaper=true"]

/-- The preprocessor defines contributed by a capability. -/
def capabilityDefines : Capability → List String
  | Capability.gpu => ["SK_SUPPORT_GPU=1"]
  | Capability.gl => ["SK_GL"]
  | Capability.vulkan => ["SK_VULKAN"]
  | Capability.metal => ["SK_METAL"]
  | Capability.d3d => ["SK_DIRECT3D"]
  | Capability.textlayout => ["SK_SHAPER_HARFBUZZ_AVAILABLE"]

/-- Arguments present in every build, before the capability-dependent
ones. -/
def baseArgs (fcfg : FinalBuildConfiguration) : List String :=
  ["is_official_build=true", "skia_source_dir=" ++ fcfg.sourceDir]

/-- Arguments for the external generator together with the preprocessor
defines, both kept in a sorted, stable order. -/
structure BuildArguments where
  gnArgs : List String
  defines : List String
deriving DecidableEq, Repr

/-- Modelled from the spec: the serialization half of
`ArgumentSynthesizer.synthesize` (its body lives in `build_support`, not
in the sources here) appends every enabled capability's generator
arguments and defines to the base set and sorts both lists before
serialization, so the output is stable across runs. -/
def mkArgs (fcfg : FinalBuildConfiguration) : BuildArguments :=
  { gnArgs :=
      (baseArgs fcfg ++
        (allCapabilities.filter (enabled fcfg.caps)).flatMap capabilityArgs).mergeSort
    defines :=
      ((allCapabilities.filter (enabled fcfg.caps)).flatMap capabilityDefines).mergeSort }

/-- Modelled from the spec: `ArgumentSynthesizer.synthesize` (its body
lives in `build_support`, not in the sources here) checks the whole
implication/exclusion table, collects every violated rule, and fails with
the complete list when any rule is violated; otherwise it emits the
sorted arguments.  The concrete rule table is a parameter: its exact
contents are left open by the spec. -/
def synthesize (table : List Rule) (fcfg : FinalBuildConfiguration) :
    Except (List Rule) BuildArguments :=
  let violations := table.filter (Rule.violated fcfg.caps fcfg.plat)
  if violations.isEmpty then Except.ok (mkArgs fcfg) else Except.error violations

/-- The two external tools the pipeline invokes. -/
inductive Tool
  | generator
  | executor
deriving DecidableEq, BEq, Repr

/-- `ToolchainPaths`: the resolved generator (`gn`) and executor (`ninja`)
paths, absent when unresolved. -/
structure ToolchainPaths where
  gn : Option String
  ninja : Option String
deriving DecidableEq, Repr

/-- Tagged result of invoking the external tools (`BuildOutcome`). -/
inductive BuildOutcome
  | success (outputDir : String)
  | generationFailed (exitCode : Nat)
  | compileFailed (exitCode : Nat)
  | toolMissing (tool : Tool)
deriving DecidableEq, Repr

/-- The exit statuses the two subprocesses would report when invoked:
the ambient facts about the external tools that a run of `BuildExecutor`
observes. -/
structure SubprocessWorld where
  generatorExit : Nat
  executorExit : Nat
deriving DecidableEq, Repr

/-- Modelled from the spec: `BuildExecutor.run` (its body lives in
`build_support`, not in the sources here).  Either tool unresolved
short-circuits to `ToolMissing` without invoking anything; otherwise the
generator subprocess runs first, a nonzero exit yields
`GenerationFailed` without invoking the executor, then the executor
runs, a nonzero exit yields `CompileFailed`, else `Success` with the
output directory.  The first component is the list of subprocesses
spawned, in order. -/
def BuildExecutor.run (w : SubprocessWorld) (_args : BuildArguments)
    (tc : ToolchainPaths) (outDir : String) : List Tool × BuildOutcome :=
  match tc.gn with
  | none => ([], BuildOutcome.toolMissing Tool.generator)
  | some _ =>
    match tc.ninja with
    | none => ([], BuildOutcome.toolMissing Tool.executor)
    | some _ =>
      if w.generatorExit ≠ 0 then
        ([Tool.generator], BuildOutcome.generationFailed w.generatorExit)
      else if w.executorExit ≠ 0 then
        ([Tool.generator, Tool.executor], BuildOutcome.compileFailed w.executorExit)
      else
        ([Tool.generator, Tool.executor], BuildOutcome.success outDir)

/-- The filesystem facts the SourceResolver consults: whether a directory
exists and what entries it holds. -/
structure FileSystem where
  dirExists : String → Bool
  dirEntries : String → List String

/-- Errors of the SourceResolver. -/
inductive SourceError
  | sourceMissing (dir : String)
deriving DecidableEq, Repr

/-- Modelled from the spec: the offline mode of `SourceResolver.resolve`
(its body lives in `build_support`, not in the sources here).  The
caller-supplied directory is only checked to exist and be non-empty;
otherwise the resolver fails with `SourceMissing`. -/
def SourceResolver.resolveOffline (fs : FileSystem) (c : BuildConfiguration)
    (dir : String) : Except SourceError FinalBuildConfiguration :=
  if fs.dirExists dir && !(fs.dirEntries dir).isEmpty then
    Except.ok { config := c, sourceDir := dir, offline := true }
  else
    Except.error (SourceError.sourceMissing dir)

/-- Result of the offline pipeline: a source error, a configuration
error, or the outcome of the build stage. -/
inductive PipelineResult
  | sourceError (e : SourceError)
  | configError (errs : List Rule)
  | outcome (o : BuildOutcome)
deriving DecidableEq, Repr

/-- The offline pipeline from source resolution onward, recording which
subprocesses were spawned: resolve the offline directory, synthesize the
arguments, then run the build executor.  Failing stages spawn nothing. -/
def pipelineOffline (fs : FileSystem) (w : SubprocessWorld) (table : List Rule)
    (c : BuildConfiguration) (dir : String) (tc : ToolchainPaths) (outDir : String) :
    List Tool × PipelineResult :=
  match SourceResolver.resolveOffline fs c dir with
  | Except.error e => ([], PipelineResult.sourceError e)
  | Except.ok fcfg =>
    match synthesize table fcfg with
    | Except.error errs => ([], PipelineResult.configError errs)
    | Except.ok args =>
      let r := BuildExecutor.run w args tc outDir
      (r.1, PipelineResult.outcome r.2)

/-! Fixtures used by the closed witness theorems. -/

/-- An environment with all three `SKIA_OFFLINE_*` variables absent and
both tools found on the search path. -/
def envAllAbsent : Env :=
  { skiaOfflineSourceDir := none
    skiaOfflineNinjaCommand := none
    skiaOfflineGnCommand := none
    currentDir := "/work"
    whichGn := some "/usr/bin/gn"
    whichNinja := some "/usr/bin/ninja" }

/-- An offline environment with explicit overrides for both tools. -/
def envOfflineOverrides : Env :=
  { skiaOfflineSourceDir := some "/prefetched/skia"
    skiaOfflineNinjaCommand := some "/opt/ninja"
    skiaOfflineGnCommand := some "/opt/gn"
    currentDir := "/work"
    whichGn := some "/usr/bin/gn"
    whichNinja := some "/usr/bin/ninja" }

/-- A full-mode environment that sets both offline tool-override
variables; they must have no effect. -/
def envFullWithOverrides : Env :=
  { skiaOfflineSourceDir := none
    skiaOfflineNinjaCommand := some "/opt/ninja"
    skiaOfflineGnCommand := some "/opt/gn"
    currentDir := "/work"
    whichGn := some "/usr/bin/gn"
    whichNinja := some "/usr/bin/ninja" }

/-- A capability set enabling two mutually exclusive GPU backends without
`gpu`, used to exhibit several simultaneous rule violations. -/
def vkMetalConfig : FinalBuildConfiguration :=
  { config :=
      { features := { svg := false, shaper := false
                      capabilities := [Capability.vulkan, Capability.metal] }
        platform := Platform.linux }
    sourceDir := "/src/skia"
    offline := false }

/-- A valid capability set: the GL backend with `gpu` and text layout on
Linux. -/
def glValidConfig : FinalBuildConfiguration :=
  { config :=
      { features := { svg := false, shaper := false
                      capabilities := [Capability.gpu, Capability.gl, Capability.textlayout] }
        platform := Platform.linux }
    sourceDir := "/src/skia"
    offline := false }

/-- A filesystem on which no directory exists. -/
def emptyFs : FileSystem :=
  { dirExists := fun _ => false
    dirEntries := fun _ => [] }

/-- A world in which the generator would exit with status 1. -/
def genFailWorld : SubprocessWorld :=
  { generatorExit := 1, executorExit := 0 }

/-- A fully resolved toolchain. -/
def fullToolchain : ToolchainPaths :=
  { gn := some "/usr/bin/gn", ninja := some "/usr/bin/ninja" }

/-! ### Claims C5, C6, C7, C9, C10: the control flow of `fn main` -/

/-- C6: offline and full build modes are mutually exclusive — `fn main`
runs in full-build mode exactly when `SKIA_OFFLINE_SOURCE_DIR` (the only
environment input that selects otherwise) is absent, and in offline mode
exactly when it is present; in particular, when all three `SKIA_OFFLINE_*`
variables are absent the pipeline performs a full build rooted at the
working directory joined with `skia`. -/
theorem mode_selection (e : Env) :
    ((mainPlan e).mode = Mode.full ↔ offline_source_dir e = none)
    ∧ ((mainPlan e).mode = Mode.offline ↔ ∃ d, offline_source_dir e = some d)
    ∧ (offline_source_dir e = none → offline_ninja_command e = none →
        offline_gn_command e = none →
        (mainPlan e).mode = Mode.full
        ∧ (mainPlan e).sourceDir = e.currentDir ++ "/skia") := by
  rcases h : e.skiaOfflineSourceDir with _ | d <;>
    simp [mainPlan, offline_source_dir, offline_ninja_command, offline_gn_command, h]

/-- Witness for C6: with all three variables absent, the mode is full and
the source tree is the conventional checkout location. -/
theorem mode_selection_witness :
    (mainPlan envAllAbsent).mode = Mode.full
    ∧ (mainPlan envAllAbsent).sourceDir = envAllAbsent.currentDir ++ "/skia" :=
  (mode_selection envAllAbsent).2.2 rfl rfl rfl

/-- C7: toolchain resolution precedence, for each of the two tools: the
explicit override is used when present, otherwise the result of searching
the executable search path, otherwise the tool stays unresolved — and an
absent tool does not fail resolution (the plan is still produced, with a
`none` slot). -/
theorem toolchain_resolution (e : Env) (d : String)
    (h : offline_source_dir e = some d) :
    ((∀ p, offline_ninja_command e = some p → (mainPlan e).ninja = some p)
      ∧ (offline_ninja_command e = none → (mainPlan e).ninja = e.whichNinja)
      ∧ (offline_ninja_command e = none → e.whichNinja = none →
          (mainPlan e).ninja = none))
    ∧ ((∀ p, offline_gn_command e = some p → (mainPlan e).gn = some p)
      ∧ (offline_gn_command e = none → (mainPlan e).gn = e.whichGn)
      ∧ (offline_gn_command e = none → e.whichGn = none →
          (mainPlan e).gn = none)) := by
  constructor
  · refine ⟨fun p hp => ?_, fun hn => ?_, fun hn hw => ?_⟩ <;>
      simp_all [mainPlan, offline_source_dir, offline_ninja_command, Option.orElse]
  · refine ⟨fun p hp => ?_, fun hn => ?_, fun hn hw => ?_⟩ <;>
      simp_all [mainPlan, offline_source_dir, offline_gn_command, Option.orElse]

/-- Witness for C7: in an offline environment with explicit overrides,
both overrides win over the search-path results. -/
theorem toolchain_resolution_witness :
    (mainPlan envOfflineOverrides).ninja = some "/opt/ninja"
    ∧ (mainPlan envOfflineOverrides).gn = some "/opt/gn" :=
  ⟨(toolchain_resolution envOfflineOverrides "/prefetched/skia" rfl).1.1 _ rfl,
   (toolchain_resolution envOfflineOverrides "/prefetched/skia" rfl).2.1 _ rfl⟩

/-- C9: configuration resolution never fails on the removed capability
names `svg` and `shaper`: whenever one of them is enabled, the
corresponding non-fatal warning is emitted and `fn main` still produces
the `BuildConfiguration` unchanged. -/
theorem deprecated_features_nonfatal (f : Features) (p : Platform)
    (h : f.svg = true ∨ f.shaper = true) :
    (f.svg = true → svgWarning ∈ (mainResolve f p).1)
    ∧ (f.shaper = true → shaperWarning ∈ (mainResolve f p).1)
    ∧ (mainResolve f p).2 = BuildConfiguration.resolve f p := by
  refine ⟨fun hs => ?_, fun hs => ?_, rfl⟩ <;>
    simp [mainResolve, mainWarnings, hs]

/-- Witness for C9: with both removed features enabled, both warnings are
emitted and a `BuildConfiguration` is still produced. -/
theorem deprecated_features_nonfatal_witness :
    svgWarning ∈ (mainResolve
        { svg := true, shaper := true, capabilities := [] } Platform.linux).1
    ∧ (mainResolve
        { svg := true, shaper := true, capabilities := [] } Platform.linux).2
      = BuildConfiguration.resolve
          { svg := true, shaper := true, capabilities := [] } Platform.linux :=
  ⟨(deprecated_features_nonfatal _ Platform.linux (Or.inl rfl)).1 rfl,
   (deprecated_features_nonfatal _ Platform.linux (Or.inl rfl)).2.2⟩

/-- C10: in full-build mode the two offline tool-override variables are
never consulted: any two environments that agree on everything except
`SKIA_OFFLINE_NINJA_COMMAND` and `SKIA_OFFLINE_GN_COMMAND` produce the
same plan, whose tool paths are exactly the search-path results and whose
source tree is the working directory joined with `skia`. -/
theorem full_mode_ignores_overrides (e₁ e₂ : Env)
    (h₁ : e₁.skiaOfflineSourceDir = none) (h₂ : e₂.skiaOfflineSourceDir = none)
    (hc : e₁.currentDir = e₂.currentDir) (hg : e₁.whichGn = e₂.whichGn)
    (hn : e₁.whichNinja = e₂.whichNinja) :
    mainPlan e₁ = mainPlan e₂
    ∧ (mainPlan e₁).ninja = e₁.whichNinja
    ∧ (mainPlan e₁).gn = e₁.whichGn
    ∧ (mainPlan e₁).sourceDir = e₁.currentDir ++ "/skia" := by
  simp [mainPlan, offline_source_dir, h₁, h₂, hc, hg, hn]

/-- Witness for C10: setting both override variables in full mode changes
nothing relative to the all-absent environment. -/
theorem full_mode_ignores_overrides_witness :
    mainPlan envFullWithOverrides = mainPlan envAllAbsent
    ∧ (mainPlan envFullWithOverrides).ninja = envFullWithOverrides.whichNinja
    ∧ (mainPlan envFullWithOverrides).gn = envFullWithOverrides.whichGn
    ∧ (mainPlan envFullWithOverrides).sourceDir
        = envFullWithOverrides.currentDir ++ "/skia" :=
  full_mode_ignores_overrides envFullWithOverrides envAllAbsent rfl rfl rfl rfl rfl

/-- Counterexample for C5: in `fn main` the `BinariesConfiguration` IS
constructed before the build runs — at the concrete all-absent
environment, `constructBinariesConfiguration` strictly precedes
`runBuild` in the trace, refuting the claim that the export record is not
constructed before the build. -/
theorem binaries_config_counterexample :
    (mainTrace envAllAbsent).indexOf Event.constructBinariesConfiguration
      < (mainTrace envAllAbsent).indexOf Event.runBuild := by
  decide

/-- C5 (amended): `BinariesConfiguration::from_cargo_env` computes the
export record from the cargo environment and the `BuildConfiguration`
alone, before either build branch runs; `commit_to_cargo` exports that
same value after the build, so the committed record is independent of the
environment (and in particular consumes no `BuildOutcome`). -/
theorem binaries_config_precedes_build (e e' : Env) (f : Features)
    (p : Platform) (d : String) :
    (mainTrace e).indexOf Event.constructBinariesConfiguration
        < (mainTrace e).indexOf Event.runBuild
    ∧ (mainTrace e).indexOf Event.runBuild
        < (mainTrace e).indexOf Event.commitToCargo
    ∧ (mainRun e f p d).committed
        = BinariesConfiguration.from_cargo_env d (BuildConfiguration.resolve f p)
    ∧ (mainRun e f p d).committed = (mainRun e' f p d).committed := by
  exact ⟨by simp only [mainTrace]; decide, by simp only [mainTrace]; decide, rfl, rfl⟩

/-! ### Claims C1, C2: the ArgumentSynthesizer -/

/-- C1: for every rule table and every configuration violating at least
one rule of the table, `synthesize` fails, and the reported error holds
exactly the violated rules — every violated rule is named, not only the
first one found. -/
theorem synthesize_reports_all_violations (table : List Rule)
    (fcfg : FinalBuildConfiguration)
    (h : ∃ r ∈ table, Rule.violated fcfg.caps fcfg.plat r = true) :
    ∃ errs, synthesize table fcfg = Except.error errs
      ∧ ∀ r ∈ table, (Rule.violated fcfg.caps fcfg.plat r = true ↔ r ∈ errs) := by
  refine ⟨table.filter (Rule.violated fcfg.caps fcfg.plat), ?_, fun r hr => ?_⟩
  · rcases h with ⟨r, hr, hv⟩
    have hmem : r ∈ table.filter (Rule.violated fcfg.caps fcfg.plat) :=
      List.mem_filter.mpr ⟨hr, hv⟩
    simp [synthesize, List.isEmpty_iff, List.ne_nil_of_mem hmem]
  · exact ⟨fun hv => List.mem_filter.mpr ⟨hr, hv⟩, fun hm => (List.mem_filter.mp hm).2⟩

/-- Witness for C1: enabling the two mutually exclusive backends `vulkan`
and `metal` (without `gpu`) on Linux violates four rules of the example
table at once — among them both the mutual-exclusion rule and the
platform-validity rule for `metal` — and the error holds exactly those
rules. -/
theorem synthesize_reports_all_violations_witness :
    (∃ r ∈ exampleRuleTable,
        Rule.violated vkMetalConfig.caps vkMetalConfig.plat r = true)
    ∧ ∃ errs, synthesize exampleRuleTable vkMetalConfig = Except.error errs
        ∧ ∀ r ∈ exampleRuleTable,
            (Rule.violated vkMetalConfig.caps vkMetalConfig.plat r = true ↔ r ∈ errs) :=
  ⟨by decide, synthesize_reports_all_violations exampleRuleTable vkMetalConfig (by decide)⟩

/-- C2: for every rule table and every configuration satisfying every
rule of the table, `synthesize` succeeds; the result is unique (the pure
function returns the same bytes on every call on the same input) and both
the generator-argument list and the define list are sorted. -/
theorem synthesize_valid_sorted (table : List Rule)
    (fcfg : FinalBuildConfiguration)
    (h : ∀ r ∈ table, Rule.violated fcfg.caps fcfg.plat r = false) :
    ∃ args, synthesize table fcfg = Except.ok args
      ∧ (∀ args', synthesize table fcfg = Except.ok args' → args' = args)
      ∧ args.gnArgs.Sorted (· ≤ ·)
      ∧ args.defines.Sorted (· ≤ ·) := by
  have hnil : table.filter (Rule.violated fcfg.caps fcfg.plat) = [] := by
    refine List.filter_eq_nil_iff.mpr fun r hr => ?_
    simp [h r hr]
  refine ⟨mkArgs fcfg, ?_, fun args' h' => ?_, ?_, ?_⟩
  · simp [synthesize, hnil]
  · have : Except.ok (ε := List Rule) (mkArgs fcfg) = Except.ok args' := by
      rw [← h']; simp [synthesize, hnil]
    exact (Except.ok.injEq _ _ ▸ this).symm
  · exact List.sorted_mergeSort' _
  · exact List.sorted_mergeSort' _

/-- Witness for C2: the valid GL configuration satisfies the whole
example table, and `synthesize` succeeds on it with sorted output. -/
theorem synthesize_valid_sorted_witness :
    (∀ r ∈ exampleRuleTable,
        Rule.violated glValidConfig.caps glValidConfig.plat r = false)
    ∧ ∃ args, synthesize exampleRuleTable glValidConfig = Except.ok args
        ∧ (∀ args', synthesize exampleRuleTable glValidConfig = Except.ok args' → args' = args)
        ∧ args.gnArgs.Sorted (· ≤ ·)
        ∧ args.defines.Sorted (· ≤ ·) :=
  ⟨by decide, synthesize_valid_sorted exampleRuleTable glValidConfig (by decide)⟩

/-! ### Claims C3, C4: the BuildExecutor -/

/-- C3: the executor subprocess starts only after the generator has
exited successfully: whenever the executor appears in the spawn trace,
the trace is generator-then-executor and the generator exit status was
zero; and when both tools are resolved and the generator exits nonzero,
the run returns `GenerationFailed` and the executor is never invoked. -/
theorem executor_only_after_generator (w : SubprocessWorld)
    (args : BuildArguments) (tc : ToolchainPaths) (outDir : String) :
    (Tool.executor ∈ (BuildExecutor.run w args tc outDir).1 →
        (BuildExecutor.run w args tc outDir).1 = [Tool.generator, Tool.executor]
        ∧ w.generatorExit = 0)
    ∧ (w.generatorExit ≠ 0 → ∀ g n, tc.gn = some g → tc.ninja = some n →
        (BuildExecutor.run w args tc outDir).2
            = BuildOutcome.generationFailed w.generatorExit
        ∧ Tool.executor ∉ (BuildExecutor.run w args tc outDir).1) := by
  rcases tc with ⟨_ | g, _ | n⟩ <;>
    by_cases hg : w.generatorExit = 0 <;>
      by_cases he : w.executorExit = 0 <;>
        simp_all [BuildExecutor.run]

/-- Witness for C3: with both tools resolved and a generator that exits
with status 1, the outcome is `GenerationFailed 1` and the executor is
not spawned. -/
theorem executor_only_after_generator_witness :
    genFailWorld.generatorExit ≠ 0
    ∧ (BuildExecutor.run genFailWorld (mkArgs glValidConfig) fullToolchain "out").2
        = BuildOutcome.generationFailed genFailWorld.generatorExit
    ∧ Tool.executor
        ∉ (BuildExecutor.run genFailWorld (mkArgs glValidConfig) fullToolchain "out").1 :=
  ⟨by decide,
   (executor_only_after_generator genFailWorld (mkArgs glValidConfig) fullToolchain
      "out").2 (by decide) _ _ rfl rfl⟩

/-- C4: with either tool unresolved, `BuildExecutor.run` spawns no
subprocess at all and returns `ToolMissing` naming the missing tool: the
generator when the generator path is absent, else the executor when the
executor path is absent. -/
theorem tool_missing_short_circuits (w : SubprocessWorld)
    (args : BuildArguments) (tc : ToolchainPaths) (outDir : String)
    (h : tc.gn = none ∨ tc.ninja = none) :
    (BuildExecutor.run w args tc outDir).1 = []
    ∧ (tc.gn = none →
        (BuildExecutor.run w args tc outDir).2 = BuildOutcome.toolMissing Tool.generator)
    ∧ (∀ g, tc.gn = some g → tc.ninja = none →
        (BuildExecutor.run w args tc outDir).2 = BuildOutcome.toolMissing Tool.executor) := by
  rcases tc with ⟨_ | g, _ | n⟩ <;> simp_all [BuildExecutor.run]

/-- Witness for C4: with the executor path unresolved, nothing is spawned
and the outcome names the executor as missing. -/
theorem tool_missing_short_circuits_witness :
    (BuildExecutor.run genFailWorld (mkArgs glValidConfig)
        { gn := some "/usr/bin/gn", ninja := none } "out").1 = []
    ∧ (BuildExecutor.run genFailWorld (mkArgs glValidConfig)
        { gn := some "/usr/bin/gn", ninja := none } "out").2
        = BuildOutcome.toolMissing Tool.executor :=
  ⟨(tool_missing_short_circuits genFailWorld (mkArgs glValidConfig)
      { gn := some "/usr/bin/gn", ninja := none } "out" (Or.inr rfl)).1,
   (tool_missing_short_circuits genFailWorld (mkArgs glValidConfig)
      { gn := some "/usr/bin/gn", ninja := none } "out" (Or.inr rfl)).2.2 _ rfl rfl⟩

/-! ### Claim C8: the SourceResolver in offline mode -/

/-- C8: in offline mode, a caller-supplied directory that does not exist
or is empty makes the pipeline fail with `SourceMissing` while spawning
no subprocess; and the only validation performed on the directory is
existence and non-emptiness — resolution succeeds exactly when both
hold. -/
theorem offline_source_validation (fs : FileSystem) (w : SubprocessWorld)
    (table : List Rule) (c : BuildConfiguration) (dir : String)
    (tc : ToolchainPaths) (outDir : String) :
    ((fs.dirExists dir = false ∨ fs.dirEntries dir = []) →
        pipelineOffline fs w table c dir tc outDir
          = ([], PipelineResult.sourceError (SourceError.sourceMissing dir)))
    ∧ ((∃ fcfg, SourceResolver.resolveOffline fs c dir = Except.ok fcfg)
        ↔ fs.dirExists dir = true ∧ fs.dirEntries dir ≠ []) := by
  constructor
  · intro h
    rcases h with h | h <;>
      simp [pipelineOffline, SourceResolver.resolveOffline, h]
  · by_cases he : fs.dirExists dir = true <;>
      by_cases hn : fs.dirEntries dir = [] <;>
        simp [SourceResolver.resolveOffline, he, hn]

/-- Witness for C8: on a filesystem with no directories, the offline
pipeline fails with `SourceMissing` for the requested directory and
spawns nothing. -/
theorem offline_source_validation_witness :
    pipelineOffline emptyFs genFailWorld exampleRuleTable glValidConfig.config
        "/prefetched/skia" fullToolchain "out"
      = ([], PipelineResult.sourceError (SourceError.sourceMissing "/prefetched/skia")) :=
  (offline_source_validation emptyFs genFailWorld exampleRuleTable glValidConfig.config
      "/prefetched/skia" fullToolchain "out").1 (Or.inl rfl)

end SkiaBuild
